/-
  Verification of the browser-automation core of `streamlit_app.py`
  ("PRINCE GROUP LOCK SYSTEM"): cookie parsing, message rotation,
  element location, the dispatcher loop, the watchdog loop, the
  reverter sequence, and the start/stop run-state model.

  Shallow embedding: pure logic is translated directly; browser/DOM
  interaction is modelled by explicit environment parameters (a query
  function from CSS selector to element list, per-tick observations,
  per-step control availability), and wall-clock timestamps by an
  oracle `ts : Nat → String` giving the result of each successive
  `time.strftime` call.
-/
import Mathlib

/-! ## Cookie parsing

Mirrors the cookie-injection blocks in `send_messages` (lines 338-353)
and `monitor_and_lock_group` (lines 483-498), which are textually
identical: split the raw cookie string on `;`, strip each segment,
skip empty segments, and for a segment whose first `=` is at a
positive index produce a (name, value) pair, each side stripped. -/

/-- Python `str.strip()` on a list of characters: drop whitespace from
both ends. -/
def trimChars (l : List Char) : List Char :=
  ((l.dropWhile Char.isWhitespace).reverse.dropWhile Char.isWhitespace).reverse

/-- Python `str.split(';')`: split on every `;`, keeping empty pieces. -/
def splitOnSemicolon : List Char → List (List Char)
  | [] => [[]]
  | c :: rest =>
    if c == ';' then [] :: splitOnSemicolon rest
    else
      match splitOnSemicolon rest with
      | [] => [[c]]
      | s :: ss => (c :: s) :: ss

/-- Python `str.find(ch)`: index of the first occurrence, `-1` if absent. -/
def pyFind : List Char → Char → Int
  | [], _ => -1
  | c :: rest, t =>
    if c == t then 0
    else
      let r := pyFind rest t
      if r < 0 then -1 else r + 1

/-- One iteration of the cookie loop body: `cookie.strip()`; if non-empty
and its first `=` is at index `> 0`, produce the stripped (name, value)
pair, otherwise nothing (no error raised). -/
def parseCookieSegment (seg : List Char) : Option (List Char × List Char) :=
  let cookie_trimmed := trimChars seg
  if cookie_trimmed ≠ [] then
    let first_equal_index := pyFind cookie_trimmed '='
    if first_equal_index > 0 then
      some (trimChars (cookie_trimmed.take first_equal_index.toNat),
            trimChars (cookie_trimmed.drop (first_equal_index.toNat + 1)))
    else none
  else none

/-- The (name, value) pairs produced from a raw cookie string. -/
def parseCookies (raw : String) : List (String × String) :=
  (splitOnSemicolon raw.toList).filterMap fun seg =>
    (parseCookieSegment seg).map fun p => (String.mk p.1, String.mk p.2)

/-- The `driver.add_cookie` loop: each addition is wrapped in its own
`try/except: pass`, so a failed addition (modelled by the oracle `ok`
returning `false`) is skipped and the loop continues with the rest.
Returns the cookies actually added, in order. -/
def addCookiesLoop : List (String × String) → (String × String → Bool) → List (String × String)
  | [], _ => []
  | p :: rest, ok =>
    if ok p then p :: addCookiesLoop rest ok
    else addCookiesLoop rest ok

/-! ## Run state and logging -/

/-- `class AutomationState` (lines 178-183): running flag, sent counter,
append-only log, rotation index. -/
structure AutomationState where
  running : Bool
  message_count : Nat
  logs : List String
  message_rotation_index : Nat
deriving DecidableEq, Repr

/-- `class LockState` (lines 620-623): running flag and append-only log. -/
structure LockState where
  running : Bool
  logs : List String
deriving DecidableEq, Repr

/-- `log_message` (lines 194-200): format a message with the current
`time.strftime("%H:%M:%S")` timestamp. The timestamp string is passed
explicitly (wall-clock time is an input of the model). -/
def log_message (timestamp msg : String) : String :=
  "[" ++ timestamp ++ "] " ++ msg

/-! ## Message rotation -/

/-- `get_next_message` (lines 312-320), in the dispatcher's calling mode
where an automation state is always supplied: empty list yields
`"Hello!"` and leaves the state alone; otherwise pick
`messages[index % len(messages)]` and increment the index. -/
def get_next_message (messages : List String) (st : AutomationState) :
    String × AutomationState :=
  if h : messages = [] then ("Hello!", st)
  else
    (messages.get ⟨st.message_rotation_index % messages.length,
       Nat.mod_lt _ (List.length_pos.mpr h)⟩,
     { st with message_rotation_index := st.message_rotation_index + 1 })

/-! ## Start / stop (Orchestrator) -/

/-- `start_automation` (lines 449-459): no-op when already running;
otherwise set the running flag, zero `message_count`, clear the log,
and spawn the dispatcher thread. The returned `Bool` records whether a
thread was spawned. `message_rotation_index` is not touched. -/
def start_automation (st : AutomationState) : AutomationState × Bool :=
  if st.running then (st, false)
  else ({ st with running := true, message_count := 0, logs := [] }, true)

/-- `start_lock_system` (lines 618-634) on an existing lock state:
no-op when already running; otherwise set the running flag, clear the
log, persist `set_lock_enabled(user, True)`, and spawn the watchdog
thread. Returns (new state, thread spawned, persisted lock-enabled
flag). -/
def start_lock_system (st : LockState) (lockEnabled : Bool) :
    LockState × Bool × Bool :=
  if st.running then (st, false, lockEnabled)
  else ({ running := true, logs := [] }, true, true)

/-! ## Dispatcher loop (`send_messages`, lines 375-432)

The while-loop of `send_messages`. The environment is a list of
iteration observations: `flagCleared` means the running flag was
observed false at the loop head; `ok b` means the send attempt
completed (`b` records whether a visible send button was found and
clicked, else the Enter-key fallback fired); `err e` means an
exception was raised during the send attempt. Exhausting the list
also models the flag reading false. -/

inductive IterObs where
  | flagCleared : IterObs
  | ok (btnFound : Bool) : IterObs
  | err (e : String) : IterObs
deriving DecidableEq, Repr

/-- Append one formatted entry to an automation log
(`log_message(msg, automation_state)`), advancing the timestamp clock. -/
def appendAuto (ts : Nat → String) (st : AutomationState) (clock : Nat)
    (msg : String) : AutomationState × Nat :=
  ({ st with logs := st.logs ++ [log_message (ts clock) msg] }, clock + 1)

/-- The body of `while automation_state.running:` in `send_messages`.
Arguments after the observations: state, local `messages_sent`,
timestamp clock. Note `get_next_message` runs (and advances the
rotation index) before the `try` block, so it runs even on an
iteration whose send attempt raises. -/
def sendLoop (ts : Nat → String) (pid : String) (namePfx : String)
    (messages_list : List String) :
    List IterObs → AutomationState → Nat → Nat → AutomationState × Nat × Nat
  | [], st, sent, clock => (st, sent, clock)
  | obs :: rest, st, sent, clock =>
    match obs with
    | .flagCleared => (st, sent, clock)
    | .ok btnFound =>
      let gp := get_next_message messages_list st
      let message_to_send :=
        if namePfx ≠ "" then (namePfx.trim ++ " " ++ gp.1).trim else gp.1
      let r1 := if btnFound then appendAuto ts gp.2 clock (pid ++ ": Send button clicked")
                else (gp.2, clock)
      let sent1 := sent + 1
      let st2 := { r1.1 with message_count := sent1 }
      let r2 := appendAuto ts st2 r1.2
        (pid ++ ": Message " ++ toString sent1 ++ " sent: " ++ message_to_send.take 60)
      sendLoop ts pid namePfx messages_list rest r2.1 sent1 r2.2
    | .err e =>
      let gp := get_next_message messages_list st
      let r1 := appendAuto ts gp.2 clock (pid ++ ": Error sending message: " ++ e)
      (r1.1, sent, r1.2)

/-- The loop of `send_messages` together with its epilogue (lines
430-432): after the loop exits — by break on an exception or by the
flag reading false — log the stop entry and clear the running flag.
Returns (final state, messages_sent, clock). -/
def send_messages_loop (ts : Nat → String) (pid : String) (namePfx : String)
    (messages_list : List String) (obs : List IterObs) (st : AutomationState)
    (sent clock : Nat) : AutomationState × Nat × Nat :=
  let r := sendLoop ts pid namePfx messages_list obs st sent clock
  let r2 := appendAuto ts r.1 r.2.2
    (pid ++ ": Automation stopped. Total messages sent: " ++ toString r.2.1)
  ({ r2.1 with running := false }, r.2.1, r2.2)

/-! ## Element locator (`find_message_input`, lines 224-275)

The DOM is modelled by a query function from CSS selector string to
the list of matched elements in document order; per-element
introspection results are fields of `Element`. `labelText` is the
value of the script `placeholder || aria-label || aria-placeholder
|| ''`. -/

structure Element where
  displayed : Bool
  width : Nat
  height : Nat
  contentEditable : Bool
  tagName : String
  labelText : String
deriving DecidableEq, Repr

/-- The prioritized selector cascade (lines 224-237), most specific
first. -/
def message_input_selectors : List String :=
  [ "div[contenteditable=\"true\"][role=\"textbox\"]",
    "div[contenteditable=\"true\"][data-lexical-editor=\"true\"]",
    "div[aria-label*=\"message\" i][contenteditable=\"true\"]",
    "div[aria-label*=\"Message\" i][contenteditable=\"true\"]",
    "div[contenteditable=\"true\"][spellcheck=\"true\"]",
    "[role=\"textbox\"][contenteditable=\"true\"]",
    "textarea[placeholder*=\"message\" i]",
    "div[aria-placeholder*=\"message\" i]",
    "div[data-placeholder*=\"message\" i]",
    "[contenteditable=\"true\"]",
    "textarea",
    "input[type=\"text\"]" ]

/-- `element.is_displayed() and element.size['width'] > 0 and
element.size['height'] > 0`. -/
def isVisible (e : Element) : Bool :=
  e.displayed && decide (0 < e.width) && decide (0 < e.height)

/-- The injected editability script: `contentEditable === 'true' ||
tagName === 'TEXTAREA' || tagName === 'INPUT'`. -/
def isEditable (e : Element) : Bool :=
  e.contentEditable || e.tagName == "TEXTAREA" || e.tagName == "INPUT"

/-- Python `pat in s` on strings: `pat` occurs as a substring of `s`. -/
def containsSubstr (s pat : String) : Bool :=
  decide (pat.toList <:+: s.toList)

/-- `keywords = ['message', 'write', 'type', 'send', 'chat', 'msg',
'reply', 'text']` (line 254). -/
def message_keywords : List String :=
  ["message", "write", "type", "send", "chat", "msg", "reply", "text"]

/-- `any(keyword in element_text for keyword in keywords)` where
`element_text` is the lower-cased label text. -/
def hasKeyword (e : Element) : Bool :=
  message_keywords.any fun k => containsSubstr e.labelText.toLower k

/-- `selector == '[contenteditable="true"]' or selector == 'textarea'`
(line 258): the two fallback patterns accepted without a keyword. -/
def isUnconditionalFallback (sel : String) : Bool :=
  sel == "[contenteditable=\"true\"]" || sel == "textarea"

/-- The per-element body of the inner `for element in elements:` loop:
return the element if it is visible and editable and either
keyword-labeled or matched under an unconditional fallback selector;
otherwise continue. -/
def acceptInSelector (sel : String) (e : Element) : Option Element :=
  if isVisible e then
    if isEditable e then
      if hasKeyword e then some e
      else if isUnconditionalFallback sel then some e
      else none
    else none
  else none

/-- The inner loop over one selector's matches, in document order. -/
def findInElements (sel : String) : List Element → Option Element
  | [] => none
  | e :: rest =>
    match acceptInSelector sel e with
    | some x => some x
    | none => findInElements sel rest

/-- The outer loop over the selector cascade. Besides the result it
returns the list of selectors actually queried, in order (each
selector that is reached is tried exactly once). -/
def findLoop (query : String → List Element) :
    List String → Option Element × List String
  | [] => (none, [])
  | sel :: rest =>
    match findInElements sel (query sel) with
    | some e => (some e, [sel])
    | none =>
      let r := findLoop query rest
      (r.1, sel :: r.2)

/-- `find_message_input` (lines 224-275): `none` models the Python
`return None` (NotFound). -/
def find_message_input (query : String → List Element) : Option Element :=
  (findLoop query message_input_selectors).1

/-- Spec-shaped acceptance predicate on a (selector, element) pair,
following the spec's words: visible, editable, and keyword-labeled or
matched by an unconditional fallback pattern. -/
def specAcceptable (p : String × Element) : Bool :=
  isVisible p.2 && isEditable p.2 && (hasKeyword p.2 || isUnconditionalFallback p.1)

/-- The full traversal order of the search: selectors in declared
priority order, each selector's matches in document order. -/
def selectorElementPairs (query : String → List Element)
    (sels : List String) : List (String × Element) :=
  (sels.map fun sel => (query sel).map fun e => (sel, e)).flatten

/-! ## Reverter (`revert_group_name`, lines 550-613)

The five steps of the remediation sequence. The page is modelled by
whether each step's script finds a visible matching control. The
function returns the steps actually attempted, in execution order,
paired with whether each found its control: the info step always runs;
the remaining four run — each unconditionally — only when the info
step succeeded (`if info_button:`). -/

structure RevertPage where
  infoBtn : Bool
  editBtn : Bool
  textInput : Bool
  saveBtn : Bool
  closeBtn : Bool
deriving DecidableEq, Repr

inductive RevertStep where
  | info : RevertStep
  | edit : RevertStep
  | setValue : RevertStep
  | save : RevertStep
  | close : RevertStep
deriving DecidableEq, Repr

def revert_group_name (page : RevertPage) : List (RevertStep × Bool) :=
  if page.infoBtn then
    [(RevertStep.info, true), (RevertStep.edit, page.editBtn),
     (RevertStep.setValue, page.textInput), (RevertStep.save, page.saveBtn),
     (RevertStep.close, page.closeBtn)]
  else [(RevertStep.info, false)]

/-- The steps attempted by one run of the Reverter. -/
def attemptedSteps (page : RevertPage) : List RevertStep :=
  (revert_group_name page).map Prod.fst

/-! ## Watchdog (`monitor_and_lock_group`, lines 467-547)

Each poll tick's environment is an observation: the heading-read
script's return value (`none` models JS `null`) or an exception raised
by the tick body. The external clearing of the running flag is
modelled by exhaustion of the observation list. -/

structure LockConf where
  chat_id : String
  locked_group_name : String
  locked_nicknames : List (String × String)
  cookies : String
deriving DecidableEq, Repr

inductive TickObs where
  | name (cur : Option String) : TickObs
  | exn (e : String) : TickObs
deriving DecidableEq, Repr

/-- Append one formatted entry to a lock log
(`log_message(msg, lock_state)`). -/
def appendLock (ts : Nat → String) (st : LockState) (clock : Nat)
    (msg : String) : LockState × Nat :=
  ({ st with logs := st.logs ++ [log_message (ts clock) msg] }, clock + 1)

def appendLockAll (ts : Nat → String) :
    List String → LockState → Nat → LockState × Nat
  | [], st, clock => (st, clock)
  | m :: ms, st, clock =>
    let r := appendLock ts st clock m
    appendLockAll ts ms r.1 r.2

/-- The `try` body of one tick (lines 514-531): (number of
`revert_group_name` invocations, log-entry payloads in order). A
mismatch between a non-empty current name and a configured locked
name logs the change and invokes the Reverter once; a match logs the
confirmation; otherwise (empty/None current name or unconfigured
locked name) nothing happens; an exception logs the error. -/
def monitorTickBody (locked : String) (obs : TickObs) : Nat × List String :=
  match obs with
  | .exn e => (0, ["LOCK: Error monitoring group name: " ++ e])
  | .name none => (0, [])
  | .name (some cur) =>
    if cur ≠ "" ∧ locked ≠ "" then
      if cur ≠ locked then
        (1, ["LOCK: Group name changed! Current: \"" ++ cur ++
             "\" → Reverting to: \"" ++ locked ++ "\""])
      else
        (0, ["LOCK: Group name locked: \"" ++ cur ++ "\""])
    else (0, [])

/-- The `while lock_state.running:` loop (lines 511-532). Arguments
after the observations: state, timestamp clock, `check_count`, revert
invocation count. -/
def monitorLoop (ts : Nat → String) (locked : String) :
    List TickObs → LockState → Nat → Nat → Nat → LockState × Nat × Nat × Nat
  | [], st, clock, check_count, reverts => (st, clock, check_count, reverts)
  | obs :: rest, st, clock, check_count, reverts =>
    let cc := check_count + 1
    let r1 := appendLock ts st clock
      ("LOCK: Check #" ++ toString cc ++ " - Monitoring group...")
    let tb := monitorTickBody locked obs
    let r2 := appendLockAll ts tb.2 r1.1 r1.2
    monitorLoop ts locked rest r2.1 r2.2 cc (reverts + tb.1)

/-- `monitor_and_lock_group` (lines 467-547): start entry; browser
setup (a raised error string or success); navigation and best-effort
cookie injection (`parseCookies` of the config cookies — no effect on
the lock state); the Group-ID guard; the polling loop; the epilogue
clearing the running flag and the persisted lock-enabled flag.
Returns (final state, final lock-enabled flag, check count, revert
invocation count). -/
def monitor_and_lock_group (ts : Nat → String) (cfg : LockConf)
    (browserErr : Option String) (ticks : List TickObs) (st : LockState) :
    LockState × Bool × Nat × Nat :=
  let r0 := appendLock ts st 0 "LOCK: Starting Group Name & Nickname Lock System..."
  match browserErr with
  | some e =>
    let r1 := appendLock ts r0.1 r0.2 ("LOCK: Browser error: " ++ e)
    ({ r1.1 with running := false }, false, 0, 0)
  | none =>
    if cfg.chat_id == "" then
      let r1 := appendLock ts r0.1 r0.2 "LOCK: Group ID required!"
      ({ r1.1 with running := false }, false, 0, 0)
    else
      let rl := monitorLoop ts cfg.locked_group_name ticks r0.1 r0.2 0 0
      let rf := appendLock ts rl.1 rl.2.1 "LOCK: Lock system stopped!"
      ({ rf.1 with running := false }, false, rl.2.2.1, rl.2.2.2)

/-- Observation classifier: the iterations that complete a send
attempt without an exception and with the flag still set. -/
def isOkObs : IterObs → Bool
  | .ok _ => true
  | _ => false

/-- A DOM model with a single matching element of zero rendered size
for every selector (no visible element anywhere). -/
def zeroVisibleQuery : String → List Element :=
  fun _ => [⟨false, 0, 0, true, "TEXTAREA", "message"⟩]

/-! ## Theorems -/

/-- Claim C3: for a non-empty list and any list, the selected message
is the one at position `index mod max(1, len(messages))`; an empty
list always yields `"Hello!"`; for `[m0, m1, m2]` starting at rotation
index 0, four successive calls yield `m0, m1, m2, m0`. -/
theorem get_next_message_rotation (messages : List String)
    (st : AutomationState) (m0 m1 m2 : String) (r : Bool) (c : Nat)
    (l : List String) :
    (get_next_message messages st).1 =
      messages.getD (st.message_rotation_index % max 1 messages.length) "Hello!"
    ∧ (get_next_message [] st).1 = "Hello!"
    ∧ (get_next_message [m0, m1, m2] ⟨r, c, l, 0⟩).1 = m0
    ∧ (get_next_message [m0, m1, m2]
        (get_next_message [m0, m1, m2] ⟨r, c, l, 0⟩).2).1 = m1
    ∧ (get_next_message [m0, m1, m2]
        (get_next_message [m0, m1, m2]
          (get_next_message [m0, m1, m2] ⟨r, c, l, 0⟩).2).2).1 = m2
    ∧ (get_next_message [m0, m1, m2]
        (get_next_message [m0, m1, m2]
          (get_next_message [m0, m1, m2]
            (get_next_message [m0, m1, m2] ⟨r, c, l, 0⟩).2).2).2).1 = m0 := by
  refine ⟨?_, rfl, by simp [get_next_message], by simp [get_next_message],
    by simp [get_next_message], by simp [get_next_message]⟩
  rcases messages with _ | ⟨a, as⟩
  · simp [get_next_message]
  · have hne : (a :: as) ≠ [] := by simp
    have hmax : max 1 (a :: as).length = (a :: as).length :=
      Nat.max_eq_right (by simp)
    have hlt : st.message_rotation_index % (as.length + 1) < (a :: as).length :=
      Nat.mod_lt _ (by omega)
    simp [get_next_message, hne, hmax, List.getElem?_eq_getElem hlt]

/-- Claim C4: cookie parsing splits on `;`, trims segments, drops
empty/whitespace segments, and splits each remaining segment on the
first `=` only, so later `=` characters belong to the value
(`"a=1;b=2=3"` gives exactly `a ↦ 1, b ↦ 2=3`); and a failed addition
of one cookie does not prevent the remaining pairs from being added
(the additions performed are exactly the parsed pairs the oracle lets
through, independent of earlier failures). -/
theorem cookie_parsing_first_equal (ps : List (String × String))
    (ok : String × String → Bool) :
    parseCookies "a=1;b=2=3" = [("a", "1"), ("b", "2=3")]
    ∧ parseCookies "a=1;  ; ;b= 2 " = [("a", "1"), ("b", "2")]
    ∧ addCookiesLoop ps ok = ps.filter ok := by
  refine ⟨by decide, by decide, ?_⟩
  induction ps with
  | nil => rfl
  | cons p rest ih =>
    simp only [addCookiesLoop, List.filter, ih]
    cases ok p <;> simp

/-- Claim C5: start is idempotent — when the running flag is already
true, `start_automation` and `start_lock_system` return with the state
(and, for the lock system, the persisted lock-enabled flag) unchanged
and spawn no thread; in particular a second start immediately after
any start is such a no-op. -/
theorem start_idempotent (st : AutomationState) (ls : LockState) (le : Bool)
    (ha : st.running = true) (hl : ls.running = true) :
    start_automation st = (st, false)
    ∧ start_lock_system ls le = (ls, false, le)
    ∧ start_automation (start_automation st).1 = ((start_automation st).1, false)
    ∧ start_lock_system (start_lock_system ls le).1 (start_lock_system ls le).2.2
        = ((start_lock_system ls le).1, false, (start_lock_system ls le).2.2) := by
  refine ⟨by simp [start_automation, ha], by simp [start_lock_system, hl], ?_, ?_⟩
  · by_cases h : st.running <;> simp [start_automation, h]
  · by_cases h : ls.running <;> simp [start_lock_system, h, hl]

/-- Witness for `start_idempotent` at a concrete running state. -/
theorem start_idempotent_witness :
    (AutomationState.running ⟨true, 7, ["x"], 2⟩ = true
      ∧ LockState.running ⟨true, ["y"]⟩ = true)
    ∧ start_automation ⟨true, 7, ["x"], 2⟩ = (⟨true, 7, ["x"], 2⟩, false) :=
  ⟨⟨by decide, by decide⟩,
    (start_idempotent ⟨true, 7, ["x"], 2⟩ ⟨true, ["y"]⟩ false
      (by decide) (by decide)).1⟩

/-- Claim C6 as stated is false: `start_automation` on a non-running
state does not zero `message_rotation_index` — starting from rotation
index 5 leaves it at 5. -/
theorem start_fresh_counterexample :
    ¬ ((start_automation ⟨false, 3, ["old"], 5⟩).1.message_rotation_index = 0) := by
  decide

/-- Claim C6, amended: a non-no-op `start_automation` clears the log,
zeroes `message_count`, and sets the running flag, but leaves
`message_rotation_index` at its previous value (it persists across
runs); a non-no-op `start_lock_system` clears the lock log, sets the
running flag, and persists the lock-enabled flag. -/
theorem start_fresh_amended (st : AutomationState) (ls : LockState) (le : Bool)
    (ha : st.running = false) (hl : ls.running = false) :
    start_automation st = (⟨true, 0, [], st.message_rotation_index⟩, true)
    ∧ start_lock_system ls le = (⟨true, []⟩, true, true) := by
  constructor
  · simp [start_automation, ha]
  · simp [start_lock_system, hl]

/-- Witness for `start_fresh_amended` at a concrete non-running state. -/
theorem start_fresh_amended_witness :
    (AutomationState.running ⟨false, 3, ["old"], 5⟩ = false
      ∧ LockState.running ⟨false, ["z"]⟩ = false)
    ∧ start_automation ⟨false, 3, ["old"], 5⟩ = (⟨true, 0, [], 5⟩, true) :=
  ⟨⟨by decide, by decide⟩,
    (start_fresh_amended ⟨false, 3, ["old"], 5⟩ ⟨false, ["z"]⟩ true
      (by decide) (by decide)).1⟩

/-- Claim C2 as stated is false: when the first Reverter step (the
info-panel control) finds nothing, the remaining steps are not
attempted — on a page with every later control present but no info
control, the run records the info step failing and never attempts the
edit step. -/
theorem reverter_steps_counterexample :
    (RevertStep.info, false) ∈ revert_group_name ⟨false, true, true, true, true⟩
    ∧ RevertStep.edit ∉ attemptedSteps ⟨false, true, true, true, true⟩ := by
  decide

/-- Claim C2, amended: once the first step (open info panel) finds its
control, the four remaining steps (open editor, set value, save,
close) are each attempted unconditionally — failure of any of them to
find a control does not prevent the later ones; but failure of the
first step ends the remediation with no later step attempted. -/
theorem reverter_steps_amended (page : RevertPage) (h : page.infoBtn = true) :
    attemptedSteps page = [RevertStep.info, RevertStep.edit,
      RevertStep.setValue, RevertStep.save, RevertStep.close]
    ∧ ∀ page' : RevertPage, page'.infoBtn = false →
        attemptedSteps page' = [RevertStep.info] := by
  constructor
  · simp [attemptedSteps, revert_group_name, h]
  · intro page' h'
    simp [attemptedSteps, revert_group_name, h']

/-- Witness for `reverter_steps_amended`: a page whose info control
exists but whose edit, input, save, and close controls are all
missing still attempts all five steps. -/
theorem reverter_steps_amended_witness :
    RevertPage.infoBtn ⟨true, false, false, false, false⟩ = true
    ∧ attemptedSteps ⟨true, false, false, false, false⟩ =
        [RevertStep.info, RevertStep.edit, RevertStep.setValue,
         RevertStep.save, RevertStep.close] :=
  ⟨by decide,
    (reverter_steps_amended ⟨true, false, false, false, false⟩ (by decide)).1⟩

/-- Helper: `pyFind` returns `-1` exactly when the character is absent. -/
theorem pyFind_of_not_mem (l : List Char) (t : Char) (h : t ∉ l) :
    pyFind l t = -1 := by
  induction l with
  | nil => rfl
  | cons c rest ih =>
    have hc : ¬ (c == t) = true := by
      simp only [beq_iff_eq]
      exact fun hct => h (hct ▸ List.mem_cons_self c rest)
    have hr : pyFind rest t = -1 := ih fun hm => h (List.mem_cons_of_mem c hm)
    simp [pyFind, hc, hr]

/-- Helper: `pyFind` either reports absence with `-1`, or returns the
index of the first occurrence. -/
theorem pyFind_spec (l : List Char) (t : Char) :
    (t ∉ l ∧ pyFind l t = -1) ∨
    ∃ i : Nat, pyFind l t = i ∧ l[i]? = some t ∧ t ∉ l.take i := by
  induction l with
  | nil => exact Or.inl ⟨by simp, rfl⟩
  | cons c rest ih =>
    by_cases hc : c = t
    · exact Or.inr ⟨0, by simp [pyFind, hc], by simp [hc], by simp⟩
    · have hcb : ¬ (c == t) = true := by simpa using hc
      rcases ih with ⟨hnm, hf⟩ | ⟨i, hf, hget, hnt⟩
      · exact Or.inl ⟨by simp [hc, hnm, Ne.symm hc], by simp [pyFind, hcb, hf]⟩
      · refine Or.inr ⟨i + 1, ?_, by simpa using hget, ?_⟩
        · have hnn : ¬ ((i : Int) < 0) := by omega
          simp [pyFind, hcb, hf, hnn]
        · simp only [List.take_succ_cons, List.mem_cons]
          rintro (h | h)
          · exact hc h.symm
          · exact hnt h

/-- Claim C9: cookie parsing drops every trimmed segment with no `=`
at all or whose first `=` is its first character; only segments whose
first `=` sits at a position greater than zero produce a pair, and
that pair splits the segment at that first `=`. The parse is total, so
no error is raised. -/
theorem cookie_segment_malformed (seg : List Char) :
    ('=' ∉ trimChars seg → parseCookieSegment seg = none)
    ∧ (∀ rest, trimChars seg = '=' :: rest → parseCookieSegment seg = none)
    ∧ (∀ n v, parseCookieSegment seg = some (n, v) →
        ∃ i : Nat, 0 < i ∧ (trimChars seg)[i]? = some '='
          ∧ '=' ∉ (trimChars seg).take i
          ∧ n = trimChars ((trimChars seg).take i)
          ∧ v = trimChars ((trimChars seg).drop (i + 1))) := by
  refine ⟨?_, ?_, ?_⟩
  · intro h
    have hf : pyFind (trimChars seg) '=' = -1 := pyFind_of_not_mem _ _ h
    simp [parseCookieSegment, hf]
  · intro rest h
    simp [parseCookieSegment, h, pyFind]
  · intro n v h
    by_cases htr : trimChars seg = []
    · simp [parseCookieSegment, htr] at h
    · rcases pyFind_spec (trimChars seg) '=' with ⟨_, hf⟩ | ⟨i, hf, hget, hnt⟩
      · simp [parseCookieSegment, htr, hf] at h
      · rcases Nat.eq_zero_or_pos i with hi | hi
        · subst hi
          simp [parseCookieSegment, htr, hf] at h
        · have hipos : (0 : Int) < (i : Int) := by exact_mod_cast hi
          refine ⟨i, hi, hget, hnt, ?_, ?_⟩
          · simp [parseCookieSegment, htr, hf, hipos] at h
            exact h.1.symm
          · simp [parseCookieSegment, htr, hf, hipos] at h
            exact h.2.symm

/-- Witness for `cookie_segment_malformed`: the segment `" noeq "` has
no `=` and yields nothing; the segment `"=abc"` starts with `=` and
yields nothing. -/
theorem cookie_segment_malformed_witness :
    ('=' ∉ trimChars " noeq ".toList
      ∧ parseCookieSegment " noeq ".toList = none)
    ∧ (trimChars "=abc".toList = '=' :: "abc".toList
      ∧ parseCookieSegment "=abc".toList = none) :=
  ⟨⟨by decide, (cookie_segment_malformed " noeq ".toList).1 (by decide)⟩,
   ⟨by decide,
    (cookie_segment_malformed "=abc".toList).2.1 "abc".toList (by decide)⟩⟩

/-- Claim C1: on a tick whose heading read returned a non-empty
current name, with a locked name configured: a differing current name
invokes the Reverter exactly once and logs the change; an equal
current name invokes no Reverter and appends the confirmation entry to
the lock-state log. -/
theorem watchdog_drift_tick (ts : Nat → String) (locked cur : String)
    (st : LockState) (clock cc rv : Nat)
    (hcur : cur ≠ "") (hlocked : locked ≠ "") :
    (cur ≠ locked →
      (monitorLoop ts locked [TickObs.name (some cur)] st clock cc rv).2.2.2
          = rv + 1
      ∧ (monitorLoop ts locked [TickObs.name (some cur)] st clock cc rv).1.logs
          = st.logs ++
            [log_message (ts clock)
              ("LOCK: Check #" ++ toString (cc + 1) ++ " - Monitoring group..."),
             log_message (ts (clock + 1))
              ("LOCK: Group name changed! Current: \"" ++ cur ++
               "\" → Reverting to: \"" ++ locked ++ "\"")])
    ∧ (cur = locked →
      (monitorLoop ts locked [TickObs.name (some cur)] st clock cc rv).2.2.2
          = rv
      ∧ (monitorLoop ts locked [TickObs.name (some cur)] st clock cc rv).1.logs
          = st.logs ++
            [log_message (ts clock)
              ("LOCK: Check #" ++ toString (cc + 1) ++ " - Monitoring group..."),
             log_message (ts (clock + 1))
              ("LOCK: Group name locked: \"" ++ cur ++ "\"")]) := by
  constructor
  · intro hne
    constructor <;>
      simp [monitorLoop, monitorTickBody, appendLock, appendLockAll,
        hcur, hlocked, hne]
  · intro heq
    constructor <;>
      simp [monitorLoop, monitorTickBody, appendLock, appendLockAll,
        hcur, hlocked, heq]

/-- Witness for `watchdog_drift_tick`: current name `"X"`, locked name
`"Y"` — one Reverter invocation on that tick. -/
theorem watchdog_drift_tick_witness :
    (("X" : String) ≠ "" ∧ ("Y" : String) ≠ "" ∧ ("X" : String) ≠ "Y")
    ∧ (monitorLoop (fun _ => "00:00:00") "Y" [TickObs.name (some "X")]
        ⟨true, []⟩ 0 0 0).2.2.2 = 0 + 1 :=
  ⟨⟨by decide, by decide, by decide⟩,
   ((watchdog_drift_tick (fun _ => "00:00:00") "Y" "X" ⟨true, []⟩ 0 0 0
      (by decide) (by decide)).1 (by decide)).1⟩

/-- Claim C10: with an empty (or missing) `chat_id` in the lock
configuration, the watchdog never enters the polling loop — its result
does not depend on the tick observations, zero checks occur, the
`"Group ID required!"` entry is appended, the running flag is cleared,
and the persisted lock-enabled flag is cleared. -/
theorem watchdog_requires_group_id (ts : Nat → String) (cfg : LockConf)
    (ticks : List TickObs) (st : LockState) (h : cfg.chat_id = "") :
    monitor_and_lock_group ts cfg none ticks st
      = monitor_and_lock_group ts cfg none [] st
    ∧ (monitor_and_lock_group ts cfg none ticks st).1.running = false
    ∧ (monitor_and_lock_group ts cfg none ticks st).2.1 = false
    ∧ (monitor_and_lock_group ts cfg none ticks st).2.2.1 = 0
    ∧ (monitor_and_lock_group ts cfg none ticks st).1.logs
        = st.logs ++
          [log_message (ts 0) "LOCK: Starting Group Name & Nickname Lock System...",
           log_message (ts 1) "LOCK: Group ID required!"] := by
  refine ⟨?_, ?_, ?_, ?_, ?_⟩ <;>
    simp [monitor_and_lock_group, appendLock, h]

/-- Witness for `watchdog_requires_group_id`: a configuration with an
empty group id executes zero checks even with a pending tick. -/
theorem watchdog_requires_group_id_witness :
    LockConf.chat_id ⟨"", "Y", [], ""⟩ = ""
    ∧ (monitor_and_lock_group (fun _ => "00:00:00") ⟨"", "Y", [], ""⟩ none
        [TickObs.name (some "X")] ⟨true, []⟩).2.2.1 = 0 :=
  ⟨by decide,
   (watchdog_requires_group_id (fun _ => "00:00:00") ⟨"", "Y", [], ""⟩
      [TickObs.name (some "X")] ⟨true, []⟩ (by decide)).2.2.2.1⟩

/-- Helper: `get_next_message` changes only the rotation index. -/
theorem get_next_message_state (ms : List String) (st : AutomationState) :
    (get_next_message ms st).2.logs = st.logs
    ∧ (get_next_message ms st).2.running = st.running
    ∧ (get_next_message ms st).2.message_count = st.message_count := by
  by_cases h : ms = [] <;> simp [get_next_message, h]

/-- Helper: the dispatcher loop never runs past a non-ok observation:
everything after it is ignored. -/
theorem sendLoop_stops_at (ts : Nat → String) (pid namePfx : String)
    (ms : List String) (x : IterObs) (hx : isOkObs x = false)
    (post : List IterObs) :
    ∀ (pre : List IterObs) (st : AutomationState) (sent clock : Nat),
      sendLoop ts pid namePfx ms (pre ++ x :: post) st sent clock
        = sendLoop ts pid namePfx ms (pre ++ [x]) st sent clock := by
  intro pre
  induction pre with
  | nil =>
    intro st sent clock
    cases x with
    | ok b => simp [isOkObs] at hx
    | err e => rfl
    | flagCleared => rfl
  | cons a rest ih =>
    intro st sent clock
    cases a with
    | flagCleared => rfl
    | err e' => rfl
    | ok b =>
      simp only [List.cons_append, sendLoop]
      exact ih _ _ _

/-- Helper: an exception observed after only ok iterations leaves an
error entry in the log. -/
theorem sendLoop_err_logged (ts : Nat → String) (pid namePfx : String)
    (ms : List String) (e : String) (post : List IterObs) :
    ∀ (pre : List IterObs), pre.all isOkObs = true →
      ∀ (st : AutomationState) (sent clock : Nat),
        ∃ k, log_message (ts k) (pid ++ ": Error sending message: " ++ e)
          ∈ (sendLoop ts pid namePfx ms (pre ++ IterObs.err e :: post)
              st sent clock).1.logs := by
  intro pre
  induction pre with
  | nil =>
    intro _ st sent clock
    refine ⟨clock, ?_⟩
    simp [sendLoop, appendAuto]
  | cons a rest ih =>
    intro hall st sent clock
    cases a with
    | ok b =>
      simp only [List.cons_append, sendLoop]
      exact ih (by simpa [isOkObs] using hall) _ _ _
    | err e' => simp [isOkObs] at hall
    | flagCleared => simp [isOkObs] at hall

/-- Helper: with only ok iterations before the exception, the sent
counter counts exactly those iterations; the errored attempt is not
counted or retried. -/
theorem sendLoop_sent_count (ts : Nat → String) (pid namePfx : String)
    (ms : List String) (e : String) (post : List IterObs) :
    ∀ (pre : List IterObs), pre.all isOkObs = true →
      ∀ (st : AutomationState) (sent clock : Nat),
        (sendLoop ts pid namePfx ms (pre ++ IterObs.err e :: post)
            st sent clock).2.1 = sent + pre.length := by
  intro pre
  induction pre with
  | nil =>
    intro _ st sent clock
    simp [sendLoop]
  | cons a rest ih =>
    intro hall st sent clock
    cases a with
    | ok b =>
      simp only [List.cons_append, sendLoop]
      refine (ih (by simpa [isOkObs] using hall) _ _ _).trans ?_
      simp only [List.length_cons]
      omega
    | err e' => simp [isOkObs] at hall
    | flagCleared => simp [isOkObs] at hall

/-- Claim C7: an exception during a send attempt halts the dispatcher
loop — later observations are never consumed, the failure is logged
with a timestamp, the attempts counted are exactly the iterations
before the failure (no retry of the failed message), and the running
flag is cleared when the loop ends; the loop likewise consumes nothing
after the running flag is observed false at an iteration boundary. -/
theorem dispatcher_error_halts (ts : Nat → String) (pid namePfx : String)
    (ms : List String) (pre post : List IterObs) (e : String)
    (st : AutomationState) (sent clock : Nat)
    (hpre : pre.all isOkObs = true) :
    send_messages_loop ts pid namePfx ms (pre ++ IterObs.err e :: post)
        st sent clock
      = send_messages_loop ts pid namePfx ms (pre ++ [IterObs.err e])
          st sent clock
    ∧ (∃ k, log_message (ts k) (pid ++ ": Error sending message: " ++ e)
        ∈ (send_messages_loop ts pid namePfx ms (pre ++ IterObs.err e :: post)
            st sent clock).1.logs)
    ∧ (send_messages_loop ts pid namePfx ms (pre ++ IterObs.err e :: post)
        st sent clock).2.1 = sent + pre.length
    ∧ (∀ obs, (send_messages_loop ts pid namePfx ms obs st sent clock).1.running
        = false)
    ∧ send_messages_loop ts pid namePfx ms (pre ++ IterObs.flagCleared :: post)
        st sent clock
      = send_messages_loop ts pid namePfx ms (pre ++ [IterObs.flagCleared])
          st sent clock := by
  refine ⟨?_, ?_, ?_, ?_, ?_⟩
  · simp only [send_messages_loop,
      sendLoop_stops_at ts pid namePfx ms (IterObs.err e) rfl post pre st sent clock]
  · obtain ⟨k, hk⟩ := sendLoop_err_logged ts pid namePfx ms e post pre hpre st sent clock
    exact ⟨k, by simp only [send_messages_loop, appendAuto]; exact List.mem_append_left _ hk⟩
  · simp only [send_messages_loop]
    exact sendLoop_sent_count ts pid namePfx ms e post pre hpre st sent clock
  · intro obs
    rfl
  · simp only [send_messages_loop,
      sendLoop_stops_at ts pid namePfx ms IterObs.flagCleared rfl post pre st sent clock]

/-- Witness for `dispatcher_error_halts`: one ok iteration, then an
exception, then a pending iteration that never runs — exactly one
attempt is counted. -/
theorem dispatcher_error_halts_witness :
    [IterObs.ok true].all isOkObs = true
    ∧ (send_messages_loop (fun _ => "00:00:00") "AUTO-1" "" ["hi"]
        ([IterObs.ok true] ++ IterObs.err "boom" :: [IterObs.ok false])
        ⟨true, 0, [], 0⟩ 0 0).2.1 = 0 + [IterObs.ok true].length :=
  ⟨by decide,
   (dispatcher_error_halts (fun _ => "00:00:00") "AUTO-1" "" ["hi"]
      [IterObs.ok true] [IterObs.ok false] "boom" ⟨true, 0, [], 0⟩ 0 0
      (by decide)).2.2.1⟩

/-- Helper: the element-acceptance body accepts exactly the elements
satisfying the spec-shaped predicate, returning the element itself. -/
theorem acceptInSelector_eq (sel : String) (e : Element) :
    acceptInSelector sel e =
      if specAcceptable (sel, e) = true then some e else none := by
  unfold acceptInSelector specAcceptable
  rcases Bool.eq_false_or_eq_true (isVisible e) with hv | hv <;>
    rcases Bool.eq_false_or_eq_true (isEditable e) with he | he <;>
      rcases Bool.eq_false_or_eq_true (hasKeyword e) with hk | hk <;>
        rcases Bool.eq_false_or_eq_true (isUnconditionalFallback sel) with hf | hf <;>
          simp [hv, he, hk, hf]

/-- Helper: the inner element loop is `find?` over the matches in
document order. -/
theorem findInElements_eq (sel : String) (es : List Element) :
    findInElements sel es = es.find? fun x => specAcceptable (sel, x) := by
  induction es with
  | nil => rfl
  | cons e rest ih =>
    simp only [findInElements, acceptInSelector_eq, List.find?]
    cases h : specAcceptable (sel, e) <;> simp [h, ih]

/-- Helper: the selector cascade returns the first acceptable element
of the full traversal. -/
theorem findLoop_fst (query : String → List Element) (sels : List String) :
    (findLoop query sels).1
      = ((selectorElementPairs query sels).find? specAcceptable).map Prod.snd := by
  induction sels with
  | nil => rfl
  | cons sel rest ih =>
    simp only [findLoop, selectorElementPairs, List.map_cons, List.flatten_cons,
      List.find?_append, List.find?_map, Function.comp_def, findInElements_eq]
    cases h : (query sel).find? (fun x => specAcceptable (sel, x)) with
    | some e => simp [h]
    | none => simp [h, ih, selectorElementPairs]

/-- Helper: when no element is acceptable, every selector reached is
tried, each exactly once, in declared order. -/
theorem findLoop_trace (query : String → List Element) (sels : List String)
    (h : (findLoop query sels).1 = none) : (findLoop query sels).2 = sels := by
  induction sels with
  | nil => rfl
  | cons sel rest ih =>
    revert h
    simp only [findLoop]
    cases hf : findInElements sel (query sel) with
    | some e => intro h; simp at h
    | none =>
      intro h
      simp only at h ⊢
      simp [ih h]

/-- Claim C8: the locator returns the first element, scanning selector
patterns in declared priority order and each pattern's matches in
document order, that is visible (displayed with non-zero width and
height), editable, and either keyword-labeled or matched by one of the
two unconditionally accepted fallback patterns; when no element of any
pattern is acceptable it returns NotFound (`none`) after trying every
pattern exactly once. -/
theorem locator_priority_order (query : String → List Element) :
    find_message_input query
      = ((selectorElementPairs query message_input_selectors).find?
          specAcceptable).map Prod.snd
    ∧ (find_message_input query = none →
        (findLoop query message_input_selectors).2 = message_input_selectors) :=
  ⟨findLoop_fst query message_input_selectors,
   fun h => findLoop_trace query message_input_selectors h⟩

/-- Witness for `locator_priority_order`: a DOM with zero visible
matching elements yields NotFound after trying all twelve patterns
exactly once. -/
theorem locator_priority_order_witness :
    find_message_input zeroVisibleQuery = none
    ∧ (findLoop zeroVisibleQuery message_input_selectors).2
        = message_input_selectors :=
  ⟨by decide, (locator_priority_order zeroVisibleQuery).2 (by decide)⟩
